import Mathlib

/-!
# Loxten request-orchestration layer: a shallow embedding

This file embeds the core of the Loxten backend (`src/api`) in Lean 4 and
proves or refutes the frozen specification claims about it.

Conventions of the embedding:
* Python strings are Lean `String`s; where Python code slices, splits, strips
  or lower-cases a string we operate on the underlying `List Char`
  (`String.data`), which matches Python's code-point semantics and keeps every
  definition kernel-computable.  Whitespace is the ASCII whitespace set that
  Python's `str.strip` / `\s` use; non-ASCII whitespace and the underscore
  digit separators of Python's `int()` do not occur in any input the service
  handles and are not modelled.
* Wall-clock time (`time.time()`) is a `Nat` of seconds; dates
  (`time.strftime("%Y-%m-%d")`) are opaque `String`s.
* Python dicts keyed by strings are association lists with the dict
  operations (`lookup`, overwrite, delete-all-occurrences, and the
  `defaultdict` insert-on-read) written out explicitly.
* Network calls (`httpx`, the LLM SDKs) and `json.loads` are external
  collaborators: each one is abstracted as an *outcome* value (or a function
  parameter), covering every branch the source distinguishes - status code
  plus parsed body, timeout, or an arbitrary exception with its message.
* Python exceptions are an `Except` layer; an uncaught exception is an
  `.error` value, a `try/except` is a `match` on that layer.
* Python floats occurring here (confidence scores) are never subject to
  rounding-sensitive arithmetic - they are parsed, defaulted and stored - so
  they are modelled as rationals (`Rat`).
-/

set_option maxRecDepth 100000

deriving instance DecidableEq for Except

/-! ## Python string primitives -/

/-- The characters matched by Python's `str.strip()` and `\s` (ASCII range). -/
def pyIsSpace (c : Char) : Bool :=
  c = ' ' || c = '\t' || c = '\n' || c = '\r' || c = '\x0b' || c = '\x0c'

/-- `s.lstrip()` on code points. -/
def pyStripLeftL (l : List Char) : List Char := l.dropWhile pyIsSpace

/-- `s.rstrip()` on code points. -/
def pyStripRightL (l : List Char) : List Char :=
  (l.reverse.dropWhile pyIsSpace).reverse

/-- `s.strip()` on code points. -/
def pyStripL (l : List Char) : List Char := pyStripRightL (pyStripLeftL l)

/-- `s.strip()` as a `String` operation. -/
def pyStrip (s : String) : String := String.mk (pyStripL s.data)

/-- `s.lower()` (ASCII case mapping, which covers every input used here). -/
def pyLower (s : String) : String := String.mk (s.data.map Char.toLower)

/-- `s.split(sep)` for a single-character separator, Python semantics:
`"".split(sep) = [""]`, separators delimit possibly-empty fields. -/
def pySplitChar (sep : Char) : List Char → List (List Char)
  | [] => [[]]
  | c :: cs =>
    match pySplitChar sep cs with
    | [] => if c = sep then [[], [c]] else [[c]]
    | h :: t => if c = sep then [] :: h :: t else (c :: h) :: t

/-- Numeric value of a digit string. -/
def digitsVal (ds : List Char) : Int :=
  ds.foldl (fun a c => 10 * a + (Int.ofNat (c.toNat - 48))) 0

/-- Python's `int(s)` on a string: strip whitespace, optional sign, decimal
digits; anything else raises `ValueError`, modelled as `none`. -/
def pyIntOfChars (l : List Char) : Option Int :=
  let t := pyStripL l
  let signAndDigits : Int × List Char :=
    match t with
    | '-' :: r => (-1, r)
    | '+' :: r => (1, r)
    | r => (1, r)
  match signAndDigits with
  | (sign, ds) =>
    if ds ≠ [] ∧ ds.all Char.isDigit then some (sign * digitsVal ds) else none

/-! ## Quota limiter (`_check_rate_limit` in `routers/analyze.py` and
`routers/breach.py`; the two copies are textually identical up to the
configured limit, which is a parameter here) -/

/-- Count map: `_daily_counts : dict[str, int]` as an association list. -/
abbrev Counts := List (String × Nat)

/-- `_daily_counts[client_id]` read through `defaultdict(int)`: missing keys
read as `0`. -/
def getCount (c : Counts) (k : String) : Nat := (c.lookup k).getD 0

/-- The `defaultdict` side effect of reading `_daily_counts[client_id]`:
a missing key is inserted with value `0` (at the end, matching dict
insertion order). -/
def touchCount (c : Counts) (k : String) : Counts :=
  if (c.lookup k).isSome then c else c ++ [(k, 0)]

/-- `d[k] = v` on a dict: overwrite the existing entry, else append. -/
def setCount : Counts → String → Nat → Counts
  | [], k, v => [(k, v)]
  | (k', v') :: rest, k, v =>
    if k' = k then (k, v) :: rest else (k', v') :: setCount rest k v

/-- `_daily_counts[k] += 1` (via `defaultdict`, so a missing key becomes 1). -/
def bumpCount (c : Counts) (k : String) : Counts :=
  setCount c k (getCount c k + 1)

/--
`_check_rate_limit(client_id)`: recompute today's date; if it differs from
`_day_key`, clear all counts and adopt the new date; return
`_daily_counts[client_id] < limit`.  State threaded explicitly:
input `(counts, dayKey)` and current date `today`, output
`(allowed, counts', dayKey')`.  The daily limit (`settings.FREE_SCANS_PER_DAY`
resp. `settings.FREE_BREACH_CHECKS_PER_DAY`) is the `limit` parameter.
-/
def _check_rate_limit (counts : Counts) (dayKey today clientId : String)
    (limit : Nat) : Bool × Counts × String :=
  let st : Counts × String :=
    if today ≠ dayKey then ([], today) else (counts, dayKey)
  match st with
  | (counts, dayKey) =>
    let counts := touchCount counts clientId
    (decide (getCount counts clientId < limit), counts, dayKey)

/-! ## Analysis data model (`models.py`) -/

/-- `ThreatItem`: one threat identified by the analysis. -/
structure ThreatItem where
  type : String
  severity : String
  description : String
  confidence : Rat
deriving DecidableEq, Repr

/-- `AnalyzeResponse`: the structured result of a page analysis. -/
structure AnalyzeResponse where
  url : String
  risk_score : Int
  is_safe : Bool
  threats : List ThreatItem
  ai_summary : String
  privacy_concerns : List String
  is_phishing : Bool
  phishing_confidence : Rat
  impersonating : Option String
  cached : Bool
deriving DecidableEq, Repr

/-- `AnalyzeResponse(url=u, ...)` with every optional field at its declared
default. -/
def defaultAnalyzeResponse (url : String) : AnalyzeResponse :=
  { url := url, risk_score := 0, is_safe := true, threats := [],
    ai_summary := "", privacy_concerns := [], is_phishing := false,
    phishing_confidence := 0, impersonating := none, cached := false }

/-! ## Result cache (`routers/analyze.py`) -/

/-- `_cache : dict[str, tuple[AnalyzeResponse, float]]`. -/
abbrev Cache := List (String × AnalyzeResponse × Nat)

/-- `CACHE_TTL = 300  # 5 minutes`. -/
def CACHE_TTL : Nat := 300

/-- `_cache[url] = (result, time.time())`: dict overwrite. -/
def cacheSet : Cache → String → AnalyzeResponse × Nat → Cache
  | [], k, v => [(k, v)]
  | (k', v') :: rest, k, v =>
    if k' = k then (k, v) :: rest else (k', v') :: cacheSet rest k v

/-- `del _cache[url]` (dict keys are unique, so removing every pair with the
key models deletion for arbitrary association lists as well). -/
def cacheDel (c : Cache) (k : String) : Cache :=
  c.filter (fun p => p.1 ≠ k)

/--
`_get_cached(url)`: on a hit within the TTL, set `result.cached = True`
**on the stored object** (the cached tuple holds the same object that is
returned) and return it; on an expired entry, delete it and return `None`.
Output is `(returned value, cache after the call)`.
-/
def _get_cached (c : Cache) (url : String) (now : Nat) :
    Option AnalyzeResponse × Cache :=
  match c.lookup url with
  | none => (none, c)
  | some (result, timestamp) =>
    if now - timestamp < CACHE_TTL then
      let result' := { result with cached := true }
      (some result', cacheSet c url (result', timestamp))
    else
      (none, cacheDel c url)

/-- The cache write performed by the endpoint:
`_cache[page_data.url] = (result, time.time())`. -/
def cachePut (c : Cache) (url : String) (r : AnalyzeResponse) (now : Nat) :
    Cache :=
  cacheSet c url (r, now)

/-! ## Analyze orchestrator (`analyze_endpoint` in `routers/analyze.py`) -/

/-- The module-level mutable state of `routers/analyze.py`. -/
structure AnalyzeState where
  cache : Cache
  counts : Counts
  dayKey : String
deriving DecidableEq, Repr

/-- What `analyze_endpoint` hands back to the HTTP layer: a response body or
the 429 `HTTPException`. -/
inductive AnalyzeOutcome where
  | ok (r : AnalyzeResponse)
  | http429
deriving DecidableEq, Repr

/-- The fallback built in the endpoint's `except` branch:
`AnalyzeResponse(url=..., risk_score=0, is_safe=True,
ai_summary=f"Analysis temporarily unavailable: {str(e)[:100]}")`. -/
def analyzeUnavailable (url e : String) : AnalyzeResponse :=
  { defaultAnalyzeResponse url with
    ai_summary := "Analysis temporarily unavailable: " ++ String.mk (e.data.take 100) }

/--
`analyze_endpoint(page_data)`: cache lookup; on miss, rate-limit check
(429 on exhaustion); then `await analyze_page(page_data)`, whose outcome is
the parameter `clientRes` (`.ok r` for a normal return, `.error e` for a
raised exception with message `e`).  On success the result is cached and
`_daily_counts["default"]` incremented; on an exception the fallback response
is returned with no cache write and no increment.
-/
def analyze_endpoint (st : AnalyzeState) (url : String) (now : Nat)
    (today : String) (limit : Nat) (clientRes : Except String AnalyzeResponse) :
    AnalyzeOutcome × AnalyzeState :=
  match _get_cached st.cache url now with
  | (some cachedR, cache') => (.ok cachedR, { st with cache := cache' })
  | (none, cache') =>
    match _check_rate_limit st.counts st.dayKey today "default" limit with
    | (allowed, counts', dayKey') =>
      let st' : AnalyzeState := ⟨cache', counts', dayKey'⟩
      if !allowed then (.http429, st')
      else
        match clientRes with
        | .ok result =>
          (.ok result,
           { st' with cache := cachePut st'.cache url result now,
                      counts := bumpCount st'.counts "default" })
        | .error e => (.ok (analyzeUnavailable url e), st')

/-! ## Breach data model (`models.py`) -/

/-- `BreachEntry`: a single breach record (description defaults to `""`). -/
structure BreachEntry where
  name : String
  date : String
  description : String
deriving DecidableEq, Repr

/-- `BreachResponse`: result of a breach check. -/
structure BreachResponse where
  email : String
  breached : Bool
  breach_count : Int
  breaches : List BreachEntry
deriving DecidableEq, Repr

/-! ## SHA-1 (`hashlib.sha1(...).hexdigest()`)

The breach fallback hashes the email with `hashlib.sha1`; the standard
FIPS 180 algorithm is implemented here over byte lists, with 32-bit words as
`Nat` reduced `% 2^32`. -/

/-- Rotate a 32-bit word left by `n` bits. -/
def rotl32 (n x : Nat) : Nat := ((x <<< n) ||| (x >>> (32 - n))) % 4294967296

/-- `email.encode("utf-8")` for one code point. -/
def utf8EncodeChar (c : Char) : List Nat :=
  let n := c.toNat
  if n < 128 then [n]
  else if n < 2048 then [192 + n / 64, 128 + n % 64]
  else if n < 65536 then [224 + n / 4096, 128 + n / 64 % 64, 128 + n % 64]
  else [240 + n / 262144, 128 + n / 4096 % 64, 128 + n / 64 % 64, 128 + n % 64]

/-- `s.encode("utf-8")` as a byte list. -/
def utf8Bytes (s : String) : List Nat := (s.data.map utf8EncodeChar).flatten

/-- SHA-1 message padding: `0x80`, zeros to 56 mod 64, 64-bit big-endian bit
length. -/
def sha1Pad (msg : List Nat) : List Nat :=
  let len := msg.length
  let zeros := (119 - len % 64) % 64
  msg ++ [128] ++ List.replicate zeros 0 ++
    (List.range 8).map (fun i => ((8 * len) >>> (8 * (7 - i))) % 256)

/-- The 16 initial 32-bit words of a 64-byte chunk (big-endian). -/
def sha1W16 (chunk : List Nat) : List Nat :=
  (List.range 16).map (fun j =>
    ((chunk.getD (4 * j) 0) <<< 24) ||| ((chunk.getD (4 * j + 1) 0) <<< 16) |||
    ((chunk.getD (4 * j + 2) 0) <<< 8) ||| chunk.getD (4 * j + 3) 0)

/-- The 80-word message schedule
`W[i] = rotl1 (W[i-3] xor W[i-8] xor W[i-14] xor W[i-16])`, built on a
reversed accumulator so the recursion is structural. -/
def sha1Schedule (chunk : List Nat) : List Nat :=
  let rev := (List.range 64).foldl (fun acc _ =>
    rotl32 1 ((acc.getD 2 0) ^^^ (acc.getD 7 0) ^^^ (acc.getD 13 0) ^^^
      (acc.getD 15 0)) :: acc)
    (sha1W16 chunk).reverse
  rev.reverse

/-- The round function: `Ch`, `Parity`, `Maj`, `Parity` by round quarter. -/
def sha1F (i b c d : Nat) : Nat :=
  if i < 20 then (b &&& c) ||| ((b ^^^ 4294967295) &&& d)
  else if i < 40 then b ^^^ c ^^^ d
  else if i < 60 then (b &&& c) ||| (b &&& d) ||| (c &&& d)
  else b ^^^ c ^^^ d

/-- The round constants. -/
def sha1K (i : Nat) : Nat :=
  if i < 20 then 0x5A827999 else if i < 40 then 0x6ED9EBA1
  else if i < 60 then 0x8F1BBCDC else 0xCA62C1D6

/-- One SHA-1 round on the state `(a, b, c, d, e)`. -/
def sha1Step (w : List Nat) (s : Nat × Nat × Nat × Nat × Nat) (i : Nat) :
    Nat × Nat × Nat × Nat × Nat :=
  match s with
  | (a, b, c, d, e) =>
    let temp :=
      (rotl32 5 a + sha1F i b c d + e + sha1K i + w.getD i 0) % 4294967296
    (temp, a, rotl32 30 b, c, d)

/-- Process one 64-byte chunk. -/
def sha1ProcessChunk (h : Nat × Nat × Nat × Nat × Nat) (chunk : List Nat) :
    Nat × Nat × Nat × Nat × Nat :=
  let w := sha1Schedule chunk
  match (List.range 80).foldl (sha1Step w) h, h with
  | (a, b, c, d, e), (h0, h1, h2, h3, h4) =>
    ((h0 + a) % 4294967296, (h1 + b) % 4294967296, (h2 + c) % 4294967296,
     (h3 + d) % 4294967296, (h4 + e) % 4294967296)

/-- The five 32-bit words of the SHA-1 digest of a byte list. -/
def sha1Digest (msg : List Nat) : Nat × Nat × Nat × Nat × Nat :=
  let padded := sha1Pad msg
  (List.range (padded.length / 64)).foldl
    (fun h i => sha1ProcessChunk h ((padded.drop (64 * i)).take 64))
    (0x67452301, 0xEFCDAB89, 0x98BADCFE, 0x10325476, 0xC3D2E1F0)

/-- The sixteen lowercase hex digits (`"0123456789abcdef"`). -/
def hexCharsLower : List Char :=
  (List.range 16).map (fun n =>
    if n < 10 then Char.ofNat (48 + n) else Char.ofNat (87 + n))

/-- Hex digit (lowercase, as `hexdigest()` produces). -/
def hexDigitL (n : Nat) : Char := hexCharsLower.getD (n % 16) '0'

/-- The 8 hex digits of a 32-bit word, most significant first. -/
def wordHexL (w : Nat) : List Char :=
  (List.range 8).map (fun i => hexDigitL (w >>> (4 * (7 - i))))

/-- `hashlib.sha1(msg).hexdigest()` as a 40-char lowercase hex list. -/
def sha1HexLowerChars (msg : List Nat) : List Char :=
  match sha1Digest msg with
  | (h0, h1, h2, h3, h4) =>
    wordHexL h0 ++ wordHexL h1 ++ wordHexL h2 ++ wordHexL h3 ++ wordHexL h4

/-- `hashlib.sha1(msg).hexdigest().upper()`. -/
def sha1HexUpperChars (msg : List Nat) : List Char :=
  (sha1HexLowerChars msg).map Char.toUpper

/-- FIPS 180 test vector, checked by the kernel. -/
theorem sha1_abc_vector :
    sha1HexLowerChars (utf8Bytes "abc") =
      "a9993e364706816aba3e25717850c26c9cd0d89d".data := by decide

/-! ## HIBP breach-lookup chain (`services/hibp.py`) -/

/-- One element of the JSON array a `200` from the breach directory carries:
the fields read by `b.get("Name", "Unknown")` / `b.get("BreachDate",
"Unknown")`.  (A body that is not an array of objects makes the surrounding
code raise, which the `DirOutcome.exn` constructor covers.) -/
structure BreachObj where
  Name : Option String
  BreachDate : Option String
deriving DecidableEq, Repr

/-- Outcome of the directory request
`client.get(f"{HIBP_BREACH_URL}{email}", ...)` *including* parsing the body
on a 200: a status code with parsed body, an `httpx.TimeoutException`, or any
other exception (network error, invalid JSON, non-object array elements, ...)
with its message. -/
inductive DirOutcome where
  | status (code : Nat) (body : List BreachObj)
  | timeout
  | exn (msg : String)
deriving DecidableEq, Repr

/-- Outcome of the range request `client.get(f"{HIBP_RANGE_URL}{prefix}",...)`:
a status code with the response text, or any exception (the fallback's
`except Exception: pass` swallows them all, timeouts included). -/
inductive RangeOutcome where
  | status (code : Nat) (text : String)
  | raise
deriving DecidableEq, Repr

/-- Scan of `resp.text.strip().split("\n")` (lines as char lists): Python's
`for line in lines: parts = line.strip().split(":"); if len(parts) == 2 and
parts[0] == suffix: ...` - the count string of the first matching line. -/
def scanRangeLines (sfx : List Char) : List (List Char) → Option (List Char)
  | [] => none
  | line :: rest =>
    let parts := pySplitChar ':' (pyStripL line)
    if parts.length = 2 ∧ parts.getD 0 [] = sfx then some (parts.getD 1 [])
    else scanRangeLines sfx rest

/--
`_fallback_hash_check(email)`: SHA-1 the (already normalised) email, split
the uppercase hex digest into a 5-char prefix (sent to the range endpoint)
and 35-char suffix; on a 200, scan the `SUFFIX:COUNT` lines for the suffix.
Everything the `try` may raise (network errors, timeouts, a non-integer
count) is swallowed by `except Exception: pass`, falling through to the final
"not breached" return.
-/
def _fallback_hash_check (email : String) (rng : RangeOutcome) :
    BreachResponse :=
  let sha1_hash := sha1HexUpperChars (utf8Bytes email)
  let sfx := sha1_hash.drop 5
  match rng with
  | .raise => ⟨email, false, 0, []⟩
  | .status code text =>
    if code = 200 then
      match scanRangeLines sfx (pySplitChar '\n' (pyStripL text.data)) with
      | some countStr =>
        match pyIntOfChars countStr with
        | some count =>
          ⟨email, true, count,
           [⟨"Hash Match", "",
             "Email hash found " ++ toString count ++
             " time(s) in breach databases."⟩]⟩
        | none => ⟨email, false, 0, []⟩
      | none => ⟨email, false, 0, []⟩
    else ⟨email, false, 0, []⟩

/-- The exceptions distinguished by `check_email_breaches`'s handlers. -/
inductive BreachExc where
  | timeoutExc
  | otherExc (msg : String)
deriving DecidableEq, Repr

/-- The body of the `try` in `check_email_breaches`, which may raise
(`.error`): dispatch on the directory response status. -/
def breachTryBody (email : String) (dir : DirOutcome) (rng : RangeOutcome) :
    Except BreachExc BreachResponse :=
  match dir with
  | .timeout => .error .timeoutExc
  | .exn msg => .error (.otherExc msg)
  | .status code body =>
    if code = 404 then
      .ok ⟨email, false, 0, []⟩
    else if code = 200 then
      let breaches := body.map (fun b =>
        BreachEntry.mk (b.Name.getD "Unknown") (b.BreachDate.getD "Unknown") "")
      .ok ⟨email, true, breaches.length, breaches⟩
    else if code = 401 then
      .ok (_fallback_hash_check email rng)
    else if code = 429 then
      .ok ⟨email, false, 0,
           [⟨"Rate Limited", "", "Too many requests. Try again later."⟩]⟩
    else
      .ok ⟨email, false, 0, []⟩

/--
`check_email_breaches(email)`: normalise the email
(`email.strip().lower()`), run the directory lookup, and convert a timeout /
any other exception into the "Timeout" / "Error" diagnostic result.  The
`Except` layer is what the *caller* of the coroutine sees, so an `.error`
value would mean an exception escaping the function.
-/
def check_email_breaches (email : String) (dir : DirOutcome)
    (rng : RangeOutcome) : Except BreachExc BreachResponse :=
  let email := pyLower (pyStrip email)
  match breachTryBody email dir rng with
  | .ok r => .ok r
  | .error .timeoutExc =>
    .ok ⟨email, false, 0, [⟨"Timeout", "", "HIBP service timed out."⟩]⟩
  | .error (.otherExc msg) =>
    .ok ⟨email, false, 0, [⟨"Error", "", msg⟩]⟩

/-! ## Breach orchestrator (`breach_endpoint` in `routers/breach.py`) -/

/-- What `breach_endpoint` hands back: a response body, or the 400 / 429 /
500 `HTTPException`s. -/
inductive BreachOutcome where
  | ok (r : BreachResponse)
  | http400
  | http429
  | http500 (msg : String)
deriving DecidableEq, Repr

/--
`breach_endpoint(request)`: reject emails that are empty or lack `"@"`
(400) before anything else; rate-limit check (429); then increment
`_daily_counts["default"]` *before* calling the chain; a chain exception
becomes a 500 carrying `str(e)[:100]`.  `chain` is the outcome of
`await check_email_breaches(request.email)`.  State is `(counts, dayKey)`.
-/
def breach_endpoint (counts : Counts) (dayKey email today : String)
    (limit : Nat) (chain : Except String BreachResponse) :
    BreachOutcome × Counts × String :=
  if email = "" ∨ ¬ email.data.contains '@' then
    (.http400, counts, dayKey)
  else
    match _check_rate_limit counts dayKey today "default" limit with
    | (allowed, counts', dayKey') =>
      if !allowed then (.http429, counts', dayKey')
      else
        let counts'' := bumpCount counts' "default"
        match chain with
        | .ok r => (.ok r, counts'', dayKey')
        | .error e =>
          (.http500 ("Breach check failed: " ++ String.mk (e.data.take 100)),
           counts'', dayKey')

/-! ## Response interpreter (`_parse_llm_response` in `services/gemini.py`) -/

/-- A parsed JSON value (the possible results of `json.loads`). -/
inductive JVal where
  | jnull
  | jbool (b : Bool)
  | jnum (q : Rat)
  | jstr (s : String)
  | jarr (xs : List JVal)
  | jobj (fields : List (String × JVal))

/-- The exception classes `_parse_llm_response` can meet.  Its `except`
clause catches `json.JSONDecodeError`, `KeyError` and `ValueError` (pydantic's
`ValidationError` is a `ValueError`); `TypeError` and `AttributeError` are
*not* caught. -/
inductive PyExc where
  | jsonDecodeErr
  | keyErr
  | valueErr
  | typeErr
  | attributeErr
deriving DecidableEq, Repr

/-- Python `int(f)` on a number: truncation toward zero. -/
def ratTruncPy (q : Rat) : Int :=
  if q < 0 then -(Rat.floor (-q)) else Rat.floor q

/-- Python `float(s)` on a string: strip whitespace, optional sign, decimal
digits with at most one point (exponent and `inf`/`nan` forms never occur in
the handled inputs and are not modelled); failure raises `ValueError`,
modelled as `none`. -/
def pyFloatOfChars (l : List Char) : Option Rat :=
  let t := pyStripL l
  let signAndBody : Rat × List Char :=
    match t with
    | '-' :: r => (-1, r)
    | '+' :: r => (1, r)
    | r => (1, r)
  match signAndBody with
  | (sign, body) =>
    match pySplitChar '.' body with
    | [ds] =>
      if ds ≠ [] ∧ ds.all Char.isDigit then some (sign * (digitsVal ds : Rat))
      else none
    | [ip, fp] =>
      if (ip ≠ [] ∨ fp ≠ []) ∧ ip.all Char.isDigit ∧ fp.all Char.isDigit then
        some (sign * ((digitsVal ip : Rat) +
          (digitsVal fp : Rat) / (10 : Rat) ^ fp.length))
      else none
    | _ => none

/-- `data.get(key, default)`: needs a dict; on any non-dict (list, str,
number, ...) Python raises `AttributeError` (`.get` does not exist). -/
def pyDictGet (v : JVal) (key : String) (dflt : JVal) : Except PyExc JVal :=
  match v with
  | .jobj fields => .ok ((fields.lookup key).getD dflt)
  | _ => .error .attributeErr

/-- `for t in v`: lists iterate their elements, dicts their keys, strings
their characters; other values raise `TypeError`. -/
def pyIter (v : JVal) : Except PyExc (List JVal) :=
  match v with
  | .jarr xs => .ok xs
  | .jobj fields => .ok (fields.map (fun p => .jstr p.1))
  | .jstr s => .ok (s.data.map (fun c => .jstr (String.mk [c])))
  | _ => .error .typeErr

/-- Python `float(v)`: numbers pass through, bools become 0/1, numeric
strings are parsed (`ValueError` otherwise); `None`, lists and dicts raise
`TypeError`. -/
def pyFloat (v : JVal) : Except PyExc Rat :=
  match v with
  | .jnum q => .ok q
  | .jbool b => .ok (if b then 1 else 0)
  | .jstr s =>
    match pyFloatOfChars s.data with
    | some q => .ok q
    | none => .error .valueErr
  | _ => .error .typeErr

/-- Python `int(v)`: ints pass through, floats truncate toward zero, bools
become 0/1, digit strings are parsed (`ValueError` otherwise); `None`, lists
and dicts raise `TypeError`. -/
def pyIntCoe (v : JVal) : Except PyExc Int :=
  match v with
  | .jnum q => .ok (ratTruncPy q)
  | .jbool b => .ok (if b then 1 else 0)
  | .jstr s =>
    match pyIntOfChars s.data with
    | some n => .ok n
    | none => .error .valueErr
  | _ => .error .typeErr

/-- pydantic `str` field validation: accepts exactly strings. -/
def pyStrField (v : JVal) : Except PyExc String :=
  match v with
  | .jstr s => .ok s
  | _ => .error .valueErr

/-- pydantic `bool` field validation (the inputs exercised here are genuine
booleans or absent; lenient coercions of exotic inputs are not modelled). -/
def pyBoolField (v : JVal) : Except PyExc Bool :=
  match v with
  | .jbool b => .ok b
  | _ => .error .valueErr

/-- pydantic `list[str]` field validation. -/
def pyStrListField (v : JVal) : Except PyExc (List String) :=
  match v with
  | .jarr xs => xs.mapM pyStrField
  | _ => .error .valueErr

/-- pydantic `Optional[str]` field validation. -/
def pyOptStrField (v : JVal) : Except PyExc (Option String) :=
  match v with
  | .jnull => .ok none
  | .jstr s => .ok (some s)
  | _ => .error .valueErr

/-- One element of the `threats` list comprehension:
`ThreatItem(type=t.get("type", "unknown"), severity=t.get("severity",
"medium"), description=t.get("description", ""),
confidence=float(t.get("confidence", 0.5)))` - the `.get`s and the `float`
run in argument order, then pydantic validates the fields. -/
def extractThreat (t : JVal) : Except PyExc ThreatItem := do
  let tyV ← pyDictGet t "type" (.jstr "unknown")
  let sevV ← pyDictGet t "severity" (.jstr "medium")
  let descV ← pyDictGet t "description" (.jstr "")
  let confV ← pyDictGet t "confidence" (.jnum (1 / 2))
  let confidence ← pyFloat confV
  let type ← pyStrField tyV
  let severity ← pyStrField sevV
  let description ← pyStrField descV
  pure ⟨type, severity, description, confidence⟩

/-- The body of `_parse_llm_response`'s `try` after `json.loads` succeeded
with `data`: the `threats` comprehension, then the `AnalyzeResponse(...)`
construction - field expressions (with their `int`/`float` coercions and the
`min(100, max(0, _))` clamp) in argument order, then pydantic validation. -/
def extractFields (data : JVal) (url : String) :
    Except PyExc AnalyzeResponse := do
  let threatsV ← pyDictGet data "threats" (.jarr [])
  let threatElems ← pyIter threatsV
  let threats ← threatElems.mapM extractThreat
  let rsV ← pyDictGet data "risk_score" (.jnum 0)
  let rs ← pyIntCoe rsV
  let risk_score := min 100 (max 0 rs)
  let isSafeV ← pyDictGet data "is_safe" (.jbool true)
  let aiSummaryV ← pyDictGet data "ai_summary" (.jstr "")
  let privacyV ← pyDictGet data "privacy_concerns" (.jarr [])
  let isPhishingV ← pyDictGet data "is_phishing" (.jbool false)
  let pcV ← pyDictGet data "phishing_confidence" (.jnum 0)
  let phishing_confidence ← pyFloat pcV
  let impV ← pyDictGet data "impersonating" .jnull
  let is_safe ← pyBoolField isSafeV
  let ai_summary ← pyStrField aiSummaryV
  let privacy_concerns ← pyStrListField privacyV
  let is_phishing ← pyBoolField isPhishingV
  let impersonating ← pyOptStrField impV
  pure { url := url, risk_score := risk_score, is_safe := is_safe,
         threats := threats, ai_summary := ai_summary,
         privacy_concerns := privacy_concerns, is_phishing := is_phishing,
         phishing_confidence := phishing_confidence,
         impersonating := impersonating, cached := false }

/-- `re.sub(r"^```(?:json)?\s*", "", cleaned)`: drop the three backticks, an
optional `json` tag, and the maximal following whitespace run. -/
def stripLeadFence (l : List Char) : List Char :=
  let t := l.drop 3
  let t := if ("json".data).isPrefixOf t then t.drop 4 else t
  t.dropWhile pyIsSpace

/-- `re.sub(r"\s*```$", "", cleaned)`: if the text ends in three backticks,
drop them and the maximal preceding whitespace run.  (`$` matching before a
final newline cannot fire: the input was stripped first and the leading
substitution only shortens its front.) -/
def stripTrailFence (l : List Char) : List Char :=
  if ("```".data).isSuffixOf l then
    ((l.reverse.drop 3).dropWhile pyIsSpace).reverse
  else l

/-- Lines 83-86: `cleaned = raw.strip()`, then if it starts with three
backticks strip the leading and trailing fence. -/
def stripFences (raw : List Char) : List Char :=
  let cleaned := pyStripL raw
  if ("```".data).isPrefixOf cleaned then
    stripTrailFence (stripLeadFence cleaned)
  else cleaned

/-- The fallback response built in the `except` branch:
`AnalyzeResponse(url=url, risk_score=0, is_safe=True,
ai_summary=f"Analysis could not be parsed. Raw: {raw[:200]}")`. -/
def parseFallback (raw : List Char) (url : String) : AnalyzeResponse :=
  { defaultAnalyzeResponse url with
    ai_summary :=
      "Analysis could not be parsed. Raw: " ++ String.mk (raw.take 200) }

/--
`_parse_llm_response(raw, url)`.  `loads` abstracts `json.loads` (`none` for
a `JSONDecodeError`).  A decode failure or a `KeyError`/`ValueError` from
field extraction is caught and yields the safe fallback; a `TypeError` or
`AttributeError` escapes (`.error`).
-/
def _parse_llm_response (loads : List Char → Option JVal) (raw : List Char)
    (url : String) : Except PyExc AnalyzeResponse :=
  match loads (stripFences raw) with
  | none => .ok (parseFallback raw url)
  | some data =>
    match extractFields data url with
    | .ok r => .ok r
    | .error e =>
      if e = .jsonDecodeErr ∨ e = .keyErr ∨ e = .valueErr then
        .ok (parseFallback raw url)
      else .error e

/-! ## Dictionary lemmas -/

theorem lookup_setCount_self (c : Counts) (k : String) (v : Nat) :
    (setCount c k v).lookup k = some v := by
  induction c with
  | nil => simp [setCount, List.lookup]
  | cons p rest ih =>
    obtain ⟨k', v'⟩ := p
    by_cases h : k' = k
    · simp [setCount, h, List.lookup]
    · simp only [setCount, if_neg h, List.lookup]
      have : (k == k') = false := by simp [Ne.symm h]
      simp [this, ih]

theorem lookup_cacheSet_self (c : Cache) (k : String)
    (v : AnalyzeResponse × Nat) : (cacheSet c k v).lookup k = some v := by
  induction c with
  | nil => simp [cacheSet, List.lookup]
  | cons p rest ih =>
    obtain ⟨k', v'⟩ := p
    by_cases h : k' = k
    · simp [cacheSet, h, List.lookup]
    · simp only [cacheSet, if_neg h, List.lookup]
      have : (k == k') = false := by simp [Ne.symm h]
      simp [this, ih]

theorem lookup_cacheDel_self (c : Cache) (k : String) :
    (cacheDel c k).lookup k = none := by
  induction c with
  | nil => simp [cacheDel, List.lookup]
  | cons p rest ih =>
    obtain ⟨k', v'⟩ := p
    by_cases h : k' = k
    · simpa [cacheDel, h] using ih
    · simp only [cacheDel] at ih ⊢
      simp only [List.filter]
      have hd : (decide (k' ≠ k)) = true := by simp [h]
      simp only [hd, List.lookup]
      have hb : (k == k') = false := by simp [Ne.symm h]
      simp only [hb]
      exact ih

theorem getCount_touchCount (c : Counts) (k : String) :
    getCount (touchCount c k) k = getCount c k := by
  unfold touchCount
  by_cases h : (c.lookup k).isSome
  · simp [h]
  · simp only [h, if_false, Bool.false_eq_true]
    rw [getCount, List.lookup_append]
    simp only [Option.isSome] at h
    rcases hl : c.lookup k with _ | v
    · simp [getCount, hl, List.lookup]
    · rw [hl] at h; simp at h

theorem getCount_bumpCount (c : Counts) (k : String) :
    getCount (bumpCount c k) k = getCount c k + 1 := by
  unfold bumpCount getCount
  rw [lookup_setCount_self]
  rfl

/-! ## Claim C1 - result cache Get/Put contract -/

/-- A concrete analysis result used as witness material (its `cached` flag is
`false`, as every result produced by the analyzer is). -/
def sampleResult : AnalyzeResponse :=
  { url := "https://example.com", risk_score := 7, is_safe := true,
    threats := [], ai_summary := "looks fine", privacy_concerns := [],
    is_phishing := false, phishing_confidence := 0, impersonating := none,
    cached := false }

/--
C1, counterexample.  The claim asserts that a within-TTL `Get` "does not
mutate the stored copy (the stored entry's cached flag is left as it was
written)".  In the code (`analyze.py` line 30) `result.cached = True` is
executed on the object held inside `_cache`, so after a `Put` of a result
whose flag is `false`, a hit rewrites the stored entry's flag to `true`.
-/
theorem cache_get_mutates_stored_copy :
    sampleResult.cached = false ∧
    (((_get_cached (cachePut [] "https://example.com" sampleResult 0)
          "https://example.com" 10).2.lookup "https://example.com").map
        (fun p => p.1.cached)) = some true := by
  decide

/--
C1, amended: `Put(u, r)` then `Get(u)` at age `< TTL` returns `r` with
`cached := true` and rewrites the stored entry's result to that same
flagged copy (the stored object *is* mutated, its timestamp kept); at age
`≥ TTL` the `Get` returns nothing and removes the entry, and a repeated
`Get` still returns nothing without resurrecting it.
-/
theorem cache_put_get_contract (c : Cache) (u : String) (r : AnalyzeResponse)
    (t now : Nat) :
    (now - t < CACHE_TTL →
      (_get_cached (cachePut c u r t) u now).1 = some { r with cached := true }
      ∧ ((_get_cached (cachePut c u r t) u now).2.lookup u)
          = some ({ r with cached := true }, t)) ∧
    (CACHE_TTL ≤ now - t →
      _get_cached (cachePut c u r t) u now
          = (none, cacheDel (cachePut c u r t) u)
      ∧ (cacheDel (cachePut c u r t) u).lookup u = none
      ∧ _get_cached (cacheDel (cachePut c u r t) u) u now
          = (none, cacheDel (cachePut c u r t) u)) := by
  have hput : (cachePut c u r t).lookup u = some (r, t) :=
    lookup_cacheSet_self c u (r, t)
  constructor
  · intro hlt
    constructor
    · simp only [_get_cached, hput, if_pos hlt]
    · simp only [_get_cached, hput, if_pos hlt]
      exact lookup_cacheSet_self _ u _
  · intro hge
    have hnlt : ¬ (now - t < CACHE_TTL) := by omega
    have hdel : (cacheDel (cachePut c u r t) u).lookup u = none :=
      lookup_cacheDel_self _ u
    refine ⟨?_, hdel, ?_⟩
    · simp only [_get_cached, hput, if_neg hnlt]
    · simp only [_get_cached, hdel]

/-- C1, witness: a fresh hit at age 10 returns the flagged copy; at age 400
(≥ 300) the entry is gone and stays gone. -/
theorem cache_put_get_contract_witness :
    ((_get_cached (cachePut [] "https://example.com" sampleResult 0)
        "https://example.com" 10).1
      = some { sampleResult with cached := true }) ∧
    (_get_cached (cachePut [] "https://example.com" sampleResult 0)
        "https://example.com" 400
      = (none, cacheDel (cachePut [] "https://example.com" sampleResult 0)
          "https://example.com")) :=
  ⟨((cache_put_get_contract [] "https://example.com" sampleResult 0 10).1
      (by decide)).1,
   ((cache_put_get_contract [] "https://example.com" sampleResult 0 400).2
      (by decide)).1⟩

/-! ## Claim C3 - quota limiter behaviour -/

/--
C3, counterexample.  `Allow` does not increment, so with a configured limit
`L = 1` two consecutive same-day `Allow` calls for the same client *both*
return `true`: the `(L+1)`-th `Allow` call does **not** return `false`
unless the orchestrator's separate increment ran in between.
-/
theorem rate_limit_consecutive_allows :
    (_check_rate_limit [] "" "2025-01-01" "default" 1).1 = true ∧
    (_check_rate_limit (_check_rate_limit [] "" "2025-01-01" "default" 1).2.1
        (_check_rate_limit [] "" "2025-01-01" "default" 1).2.2
        "2025-01-01" "default" 1).1 = true := by
  decide

/--
C3, amended: `Allow` returns `used[clientId] < limit` and leaves the count
unchanged (a `defaultdict` read, so the count *value* never moves); once the
orchestrator's separate increment step has run `L` times - `bumpCount` adds
exactly one - a same-day `Allow` with limit `L` returns `false`; and on a
date rollover all counts are cleared, so any client with a positive limit is
allowed again regardless of its prior count.
-/
theorem rate_limit_allow_contract (counts : Counts)
    (day today clientId : String) (limit : Nat) :
    ((_check_rate_limit counts day day clientId limit).1
        = decide (getCount counts clientId < limit)
      ∧ getCount (_check_rate_limit counts day day clientId limit).2.1 clientId
          = getCount counts clientId
      ∧ (_check_rate_limit counts day day clientId limit).2.2 = day)
    ∧ getCount (bumpCount counts clientId) clientId
        = getCount counts clientId + 1
    ∧ (limit ≤ getCount counts clientId →
        (_check_rate_limit counts day day clientId limit).1 = false)
    ∧ (today ≠ day → 0 < limit →
        _check_rate_limit counts day today clientId limit
          = (true, [(clientId, 0)], today)) := by
  have hsame : ¬ (day ≠ day) := fun h => h rfl
  refine ⟨⟨?_, ?_, ?_⟩, getCount_bumpCount counts clientId, ?_, ?_⟩
  · simp only [_check_rate_limit, if_neg hsame, getCount_touchCount]
  · simp only [_check_rate_limit, if_neg hsame, getCount_touchCount]
  · simp only [_check_rate_limit, if_neg hsame]
  · intro hle
    simp only [_check_rate_limit, if_neg hsame, getCount_touchCount]
    simpa using hle
  · intro hne hpos
    simp only [_check_rate_limit, if_pos hne, touchCount, List.lookup,
      List.nil_append, getCount]
    simpa using hpos

/-- C3, witness: at limit 1 and one prior increment, `Allow` refuses; after
the rollover from `"2025-01-01"` to `"2025-01-02"` the same client is allowed
again. -/
theorem rate_limit_allow_contract_witness :
    (_check_rate_limit [("default", 1)] "2025-01-01" "2025-01-01" "default"
        1).1 = false ∧
    _check_rate_limit [("default", 1)] "2025-01-01" "2025-01-02" "default" 1
      = (true, [("default", 0)], "2025-01-02") :=
  ⟨(rate_limit_allow_contract [("default", 1)] "2025-01-01" "2025-01-01"
      "default" 1).2.2.1 (by decide),
   (rate_limit_allow_contract [("default", 1)] "2025-01-01" "2025-01-02"
      "default" 1).2.2.2 (by decide) (by decide)⟩

/-! ## Claim C2 - quota charging discipline of `analyze_endpoint` -/

/--
C2, counterexample.  The claim asserts a request that passes the quota check
and then fails mid-flight is "charged exactly one quota unit".  In the code
the increment (`analyze.py` line 77) sits *after* the `await analyze_page`
inside the `try`, so an exception skips it: starting from a fresh state, a
failed request leaves `_daily_counts["default"]` at 0, not 1.
-/
theorem analyze_failed_request_not_charged :
    getCount (analyze_endpoint ⟨[], [], ""⟩ "https://example.com" 0
        "2025-01-01" 5 (.error "boom")).2.counts "default" ≠ 1 := by
  decide

/--
C2, amended: a cache hit returns before the quota check, leaving counts and
day key untouched (and ignoring the client outcome entirely); a request that
passes the quota check and then sees the client raise returns the safe
fallback and is charged **zero** quota units - the state is exactly the
post-quota-check state, with no increment and no cache write.
-/
theorem analyze_quota_charging (st : AnalyzeState) (url : String) (now : Nat)
    (today : String) (limit : Nat) (e : String) (r : AnalyzeResponse)
    (res : Except String AnalyzeResponse) :
    ((_get_cached st.cache url now).1 = some r →
      analyze_endpoint st url now today limit res
        = (.ok r, ⟨(_get_cached st.cache url now).2, st.counts, st.dayKey⟩))
    ∧ ((_get_cached st.cache url now).1 = none →
      (_check_rate_limit st.counts st.dayKey today "default" limit).1 = true →
      analyze_endpoint st url now today limit (.error e)
        = (.ok (analyzeUnavailable url e),
           ⟨(_get_cached st.cache url now).2,
            (_check_rate_limit st.counts st.dayKey today "default" limit).2.1,
            (_check_rate_limit st.counts st.dayKey today "default"
              limit).2.2⟩)) := by
  rcases hg : _get_cached st.cache url now with ⟨o, cache'⟩
  constructor
  · intro h1
    have ho : o = some r := h1
    subst ho
    simp [analyze_endpoint, hg]
  · intro h1 h2
    have ho : o = none := h1
    subst ho
    rcases hr : _check_rate_limit st.counts st.dayKey today "default" limit
      with ⟨allowed, counts', day'⟩
    rw [hr] at h2
    have ha : allowed = true := h2
    subst ha
    simp [analyze_endpoint, hg, hr]

/-- C2, witness: concrete runs of both branches - a hit leaves the count at
its prior value 3 and a mid-flight failure leaves it at the post-check
value 3, never 4. -/
theorem analyze_quota_charging_witness :
    (analyze_endpoint ⟨[("u", sampleResult, 0)], [("default", 3)],
        "2025-01-01"⟩ "u" 10 "2025-01-01" 5 (.ok sampleResult)
      = (.ok { sampleResult with cached := true },
         ⟨(_get_cached [("u", sampleResult, 0)] "u" 10).2, [("default", 3)],
          "2025-01-01"⟩)) ∧
    (analyze_endpoint ⟨[], [("default", 3)], "2025-01-01"⟩ "u" 10
        "2025-01-01" 5 (.error "boom")
      = (.ok (analyzeUnavailable "u" "boom"),
         ⟨(_get_cached [] "u" 10).2,
          (_check_rate_limit [("default", 3)] "2025-01-01" "2025-01-01"
            "default" 5).2.1,
          (_check_rate_limit [("default", 3)] "2025-01-01" "2025-01-01"
            "default" 5).2.2⟩)) :=
  ⟨(analyze_quota_charging ⟨[("u", sampleResult, 0)], [("default", 3)],
      "2025-01-01"⟩ "u" 10 "2025-01-01" 5 "boom"
      { sampleResult with cached := true } (.ok sampleResult)).1 (by decide),
   (analyze_quota_charging ⟨[], [("default", 3)], "2025-01-01"⟩ "u" 10
      "2025-01-01" 5 "boom" sampleResult (.error "boom")).2 (by decide)
      (by decide)⟩

/-! ## Claim C9 - breach endpoint input validation -/

/--
C9, confirmed: an email that is empty or lacks `"@"` is rejected with the
400 error before the quota check runs (counts and day key are untouched) and
independently of the chain outcome (no external call is consulted); an email
containing `"@"` proceeds: its outcome is fully determined by the quota check
and the chain, with the increment charged before the chain result is
inspected.
-/
theorem breach_endpoint_validation (counts : Counts)
    (dayKey email today : String) (limit : Nat)
    (chain chain2 : Except String BreachResponse) :
    ((email = "" ∨ ¬ email.data.contains '@') →
      breach_endpoint counts dayKey email today limit chain
        = (.http400, counts, dayKey)
      ∧ breach_endpoint counts dayKey email today limit chain
          = breach_endpoint counts dayKey email today limit chain2)
    ∧ (email.data.contains '@' = true →
      breach_endpoint counts dayKey email today limit chain
        = (if (_check_rate_limit counts dayKey today "default" limit).1 then
            (match chain with
             | .ok r =>
               (.ok r,
                bumpCount (_check_rate_limit counts dayKey today "default"
                  limit).2.1 "default",
                (_check_rate_limit counts dayKey today "default" limit).2.2)
             | .error e =>
               (.http500 ("Breach check failed: " ++
                  String.mk (e.data.take 100)),
                bumpCount (_check_rate_limit counts dayKey today "default"
                  limit).2.1 "default",
                (_check_rate_limit counts dayKey today "default" limit).2.2))
          else
            (.http429,
             (_check_rate_limit counts dayKey today "default" limit).2.1,
             (_check_rate_limit counts dayKey today "default" limit).2.2))) := by
  constructor
  · intro h
    unfold breach_endpoint
    constructor
    · rw [if_pos h]
    · rw [if_pos h, if_pos h]
  · intro h
    have hne : ¬ (email = "" ∨ ¬ email.data.contains '@') := by
      intro hcon
      rcases hcon with he | hc
      · subst he; simp at h
      · exact hc h
    unfold breach_endpoint
    rcases hr : _check_rate_limit counts dayKey today "default" limit
      with ⟨allowed, counts', day'⟩
    rw [if_neg hne]
    cases allowed
    · rfl
    · cases chain <;> rfl

/-- C9, witness: `"not-an-email"` is rejected with 400 and untouched state
whatever the chain would have produced; `"a@b"` with an exhausted quota gets
the 429. -/
theorem breach_endpoint_validation_witness :
    (breach_endpoint [("default", 2)] "2025-01-01" "not-an-email"
        "2025-01-01" 5 (.ok ⟨"x", false, 0, []⟩)
      = (.http400, [("default", 2)], "2025-01-01")) ∧
    (breach_endpoint [("default", 2)] "2025-01-01" "a@b" "2025-01-01" 2
        (.ok ⟨"x", false, 0, []⟩)).1 = .http429 :=
  ⟨((breach_endpoint_validation [("default", 2)] "2025-01-01" "not-an-email"
      "2025-01-01" 5 (.ok ⟨"x", false, 0, []⟩)
      (.ok ⟨"x", false, 0, []⟩)).1 (by decide)).1,
   by
    have h := (breach_endpoint_validation [("default", 2)] "2025-01-01" "a@b"
      "2025-01-01" 2 (.ok ⟨"x", false, 0, []⟩)
      (.ok ⟨"x", false, 0, []⟩)).2 (by decide)
    rw [h]
    decide⟩

/-! ## Claim C10 - totality of the breach-lookup chain -/

/-- Helper: with a normally-returned chain result, `breach_endpoint` never
produces the 500 branch (which fires only on a chain exception). -/
theorem breach_endpoint_ok_chain_no_500 (counts : Counts)
    (dayKey email today : String) (limit : Nat) (r : BreachResponse)
    (m : String) :
    (breach_endpoint counts dayKey email today limit (.ok r)).1
      ≠ .http500 m := by
  unfold breach_endpoint
  by_cases hv : email = "" ∨ ¬ email.data.contains '@'
  · rw [if_pos hv]
    intro hcon
    exact BreachOutcome.noConfusion hcon
  · rcases hr : _check_rate_limit counts dayKey today "default" limit
      with ⟨allowed, counts', day'⟩
    rw [if_neg hv]
    cases allowed
    · intro hcon; exact BreachOutcome.noConfusion hcon
    · intro hcon; exact BreachOutcome.noConfusion hcon

/--
C10, confirmed: for every email and every outcome of the directory and range
requests - status codes, timeouts, arbitrary exceptions, including anything
raised inside the 401 hash-range fallback (whose `except Exception: pass`
swallows everything) - `check_email_breaches` returns a `BreachResponse`
normally (`Except.ok`), so the breach endpoint's 500 branch is unreachable
through the chain itself.
-/
theorem check_email_breaches_total (email : String) (dir : DirOutcome)
    (rng : RangeOutcome) :
    ∃ resp, check_email_breaches email dir rng = .ok resp ∧
      ∀ (counts : Counts) (dayKey today : String) (limit : Nat) (m : String),
        (breach_endpoint counts dayKey email today limit (.ok resp)).1
          ≠ .http500 m := by
  cases hb : breachTryBody (pyLower (pyStrip email)) dir rng with
  | ok r =>
    exact ⟨r, by simp [check_email_breaches, hb],
           fun counts dayKey today limit m =>
             breach_endpoint_ok_chain_no_500 counts dayKey email today limit
               r m⟩
  | error exc =>
    cases exc with
    | timeoutExc =>
      exact ⟨⟨pyLower (pyStrip email), false, 0,
              [⟨"Timeout", "", "HIBP service timed out."⟩]⟩,
             by simp [check_email_breaches, hb],
             fun counts dayKey today limit m =>
               breach_endpoint_ok_chain_no_500 counts dayKey email today
                 limit _ m⟩
    | otherExc msg =>
      exact ⟨⟨pyLower (pyStrip email), false, 0, [⟨"Error", "", msg⟩]⟩,
             by simp [check_email_breaches, hb],
             fun counts dayKey today limit m =>
               breach_endpoint_ok_chain_no_500 counts dayKey email today
                 limit _ m⟩

/-! ## Claim C4 - breach-directory dispatch -/

/--
C4, confirmed: the dispatch of `check_email_breaches` on the directory
outcome (with the email normalised to `e` throughout): 404 - clean result;
200 - breached with one `{name, date}` record per breach object and the
count equal to the record count; 429 - single "Rate Limited" diagnostic,
terminal; any other status - clean result; timeout - single "Timeout"
diagnostic; any other exception - single "Error" record carrying the
message; 401 - the k-anonymity hash-range fallback on the normalised email.
-/
theorem check_email_breaches_dispatch (email msg : String) (code : Nat)
    (body : List BreachObj) (rng : RangeOutcome) :
    check_email_breaches email (.status 404 body) rng
        = .ok ⟨pyLower (pyStrip email), false, 0, []⟩
    ∧ check_email_breaches email (.status 200 body) rng
        = .ok ⟨pyLower (pyStrip email), true,
               (body.map (fun b => BreachEntry.mk (b.Name.getD "Unknown")
                 (b.BreachDate.getD "Unknown") "")).length,
               body.map (fun b => BreachEntry.mk (b.Name.getD "Unknown")
                 (b.BreachDate.getD "Unknown") "")⟩
    ∧ check_email_breaches email (.status 429 body) rng
        = .ok ⟨pyLower (pyStrip email), false, 0,
               [⟨"Rate Limited", "", "Too many requests. Try again later."⟩]⟩
    ∧ (code ≠ 404 → code ≠ 200 → code ≠ 401 → code ≠ 429 →
        check_email_breaches email (.status code body) rng
          = .ok ⟨pyLower (pyStrip email), false, 0, []⟩)
    ∧ check_email_breaches email .timeout rng
        = .ok ⟨pyLower (pyStrip email), false, 0,
               [⟨"Timeout", "", "HIBP service timed out."⟩]⟩
    ∧ check_email_breaches email (.exn msg) rng
        = .ok ⟨pyLower (pyStrip email), false, 0, [⟨"Error", "", msg⟩]⟩
    ∧ check_email_breaches email (.status 401 body) rng
        = .ok (_fallback_hash_check (pyLower (pyStrip email)) rng) := by
  refine ⟨rfl, rfl, rfl, ?_, rfl, rfl, rfl⟩
  intro h404 h200 h401 h429
  simp [check_email_breaches, breachTryBody, h404, h200, h401, h429]

/-- C4, witness: the other-status conjunct instantiated at 503 with
discharged side conditions, together with the 404 and 429 conjuncts at
`" User@Example.COM "` (exercising the normalisation). -/
theorem check_email_breaches_dispatch_witness :
    check_email_breaches " User@Example.COM " (.status 503 []) .raise
        = .ok ⟨"user@example.com", false, 0, []⟩
    ∧ check_email_breaches " User@Example.COM " (.status 429 []) .raise
        = .ok ⟨"user@example.com", false, 0,
               [⟨"Rate Limited", "", "Too many requests. Try again later."⟩]⟩ := by
  constructor
  · have h := (check_email_breaches_dispatch " User@Example.COM " "m" 503 []
      .raise).2.2.2.1 (by decide) (by decide) (by decide) (by decide)
    rw [h]
    decide
  · have h := (check_email_breaches_dispatch " User@Example.COM " "m" 503 []
      .raise).2.2.1
    rw [h]
    decide

/-! ## Digest shape lemmas -/

theorem wordHexL_length (w : Nat) : (wordHexL w).length = 8 := by
  simp [wordHexL]

theorem sha1HexLowerChars_length (msg : List Nat) :
    (sha1HexLowerChars msg).length = 40 := by
  rcases hd : sha1Digest msg with ⟨a, b, c, d, e⟩
  simp [sha1HexLowerChars, hd, wordHexL_length]

theorem sha1HexUpperChars_length (msg : List Nat) :
    (sha1HexUpperChars msg).length = 40 := by
  simp [sha1HexUpperChars, sha1HexLowerChars_length]

theorem hexDigitL_mem_of_fin :
    ∀ i : Fin 16, hexCharsLower.getD i.val '0' ∈ hexCharsLower := by
  decide

theorem hexDigitL_mem (n : Nat) : hexDigitL n ∈ hexCharsLower := by
  have h : n % 16 < 16 := Nat.mod_lt _ (by norm_num)
  simpa [hexDigitL] using hexDigitL_mem_of_fin ⟨n % 16, h⟩

theorem wordHexL_mem {w : Nat} {c : Char} (hc : c ∈ wordHexL w) :
    c ∈ hexCharsLower := by
  rcases List.mem_map.mp hc with ⟨i, _, rfl⟩
  exact hexDigitL_mem _

theorem sha1HexLowerChars_mem {msg : List Nat} {c : Char}
    (hc : c ∈ sha1HexLowerChars msg) : c ∈ hexCharsLower := by
  rcases hd : sha1Digest msg with ⟨a, b, d, e, f⟩
  rw [sha1HexLowerChars, hd] at hc
  simp only [List.mem_append] at hc
  rcases hc with ((((h | h) | h) | h) | h) <;> exact wordHexL_mem h

theorem toUpper_hex_mem {c : Char} (hc : c ∈ hexCharsLower) :
    c.toUpper ∈ "0123456789ABCDEF".data := by
  have hall : hexCharsLower.all
      (fun c => ("0123456789ABCDEF".data).contains c.toUpper) = true := by
    decide
  have h2 := List.all_eq_true.mp hall c hc
  simpa using h2

theorem sha1HexUpperChars_mem {msg : List Nat} {c : Char}
    (hc : c ∈ sha1HexUpperChars msg) : c ∈ "0123456789ABCDEF".data := by
  rcases List.mem_map.mp hc with ⟨c', hc', rfl⟩
  exact toUpper_hex_mem (sha1HexLowerChars_mem hc')

/-! ## Claim C5 - k-anonymity hash fallback -/

/--
C5, confirmed: the email is normalised (`strip().lower()`) before hashing,
the uppercase SHA-1 hex digest splits into a 5-char prefix and a 35-char
suffix of uppercase hex digits, and on a 200 range response the first
`SUFFIX:COUNT` line whose suffix equals the computed suffix makes the result
`breached = true` with that count and a single "Hash Match" record; with no
matching line, a non-200 status, or a raised exception, the result is
`breached = false`, count 0.
-/
theorem fallback_hash_check_contract (email text : String)
    (countStr : List Char) (k : Int) (code : Nat) (b : List BreachObj)
    (rng : RangeOutcome) :
    check_email_breaches email (.status 401 b) rng
        = .ok (_fallback_hash_check (pyLower (pyStrip email)) rng)
    ∧ ((sha1HexUpperChars (utf8Bytes (pyLower (pyStrip email)))).take 5).length
        = 5
    ∧ ((sha1HexUpperChars (utf8Bytes (pyLower (pyStrip email)))).drop 5).length
        = 35
    ∧ (∀ c ∈ sha1HexUpperChars (utf8Bytes (pyLower (pyStrip email))),
        c ∈ "0123456789ABCDEF".data)
    ∧ (scanRangeLines
          ((sha1HexUpperChars (utf8Bytes (pyLower (pyStrip email)))).drop 5)
          (pySplitChar '\n' (pyStripL text.data)) = some countStr →
       pyIntOfChars countStr = some k →
       _fallback_hash_check (pyLower (pyStrip email)) (.status 200 text)
         = ⟨pyLower (pyStrip email), true, k,
            [⟨"Hash Match", "",
              "Email hash found " ++ toString k ++
              " time(s) in breach databases."⟩]⟩)
    ∧ (scanRangeLines
          ((sha1HexUpperChars (utf8Bytes (pyLower (pyStrip email)))).drop 5)
          (pySplitChar '\n' (pyStripL text.data)) = none →
       _fallback_hash_check (pyLower (pyStrip email)) (.status 200 text)
         = ⟨pyLower (pyStrip email), false, 0, []⟩)
    ∧ (code ≠ 200 →
       _fallback_hash_check (pyLower (pyStrip email)) (.status code text)
         = ⟨pyLower (pyStrip email), false, 0, []⟩)
    ∧ _fallback_hash_check (pyLower (pyStrip email)) .raise
        = ⟨pyLower (pyStrip email), false, 0, []⟩ := by
  refine ⟨rfl, ?_, ?_, ?_, ?_, ?_, ?_, rfl⟩
  · simp [List.length_take, sha1HexUpperChars_length]
  · simp [List.length_drop, sha1HexUpperChars_length]
  · intro c hc
    exact sha1HexUpperChars_mem hc
  · intro hscan hk
    simp only [_fallback_hash_check, if_pos rfl, hscan, hk]
    exact if_pos trivial
  · intro hscan
    simp only [_fallback_hash_check, if_pos rfl, hscan]
    exact if_pos trivial
  · intro hcode
    simp only [_fallback_hash_check, if_neg hcode]

/-- C5, witness: for `" Test@Example.COM "` (normalising to
`"test@example.com"`, SHA-1 `567159D622FFBB50B11B0EFD307BE358624A26EE`), a
range body whose second line carries the computed suffix with count 37
produces the breached "Hash Match" result, and a 503 from the range endpoint
produces the clean result. -/
theorem fallback_hash_check_contract_witness :
    _fallback_hash_check "test@example.com"
        (.status 200
          "ABC:1\n9D622FFBB50B11B0EFD307BE358624A26EE:37\nDEF:2")
      = ⟨"test@example.com", true, 37,
         [⟨"Hash Match", "",
           "Email hash found 37 time(s) in breach databases."⟩]⟩
    ∧ _fallback_hash_check "test@example.com" (.status 503 "x")
      = ⟨"test@example.com", false, 0, []⟩ := by
  constructor
  · have h := (fallback_hash_check_contract " Test@Example.COM "
      "ABC:1\n9D622FFBB50B11B0EFD307BE358624A26EE:37\nDEF:2"
      "37".data 37 503 [] .raise).2.2.2.2.1 (by decide) (by decide)
    rw [show ("test@example.com" : String)
        = pyLower (pyStrip " Test@Example.COM ") from by decide] at *
    exact h
  · have h := (fallback_hash_check_contract " Test@Example.COM " "x"
      "37".data 37 503 [] .raise).2.2.2.2.2.2.1 (by decide)
    rw [show ("test@example.com" : String)
        = pyLower (pyStrip " Test@Example.COM ") from by decide] at *
    exact h

/-! ## Claim C6 - interpreter field extraction -/

theorem ratTruncPy_intCast (n : Int) : ratTruncPy (n : Rat) = n := by
  have hf : ∀ m : Int, Rat.floor ((m : Rat)) = m := by
    intro m
    simp [Rat.floor_def']
  unfold ratTruncPy
  by_cases h : (n : Rat) < 0
  · rw [if_pos h, ← Int.cast_neg, hf, neg_neg]
  · rw [if_neg h, hf]

/--
C6, confirmed: an empty object yields every documented default (risk_score 0,
is_safe true, threats [], ai_summary "", privacy_concerns [], is_phishing
false, phishing_confidence 0, impersonating absent); `risk_score` is clamped
through `min(100, max(0, int(_)))` - so -5 and 150 yield 0 and 100, and the
clamped value always lies in [0, 100]; a threat object with no `type` gets
`"unknown"`, an unrecognised type string is preserved verbatim, a missing
confidence defaults to 0.5, and a present numeric confidence is passed
through `float` unchanged.
-/
theorem parse_field_extraction (url ty : String) (q : Rat) :
    extractFields (.jobj []) url = .ok (defaultAnalyzeResponse url)
    ∧ extractFields (.jobj [("risk_score", .jnum (-5))]) url
        = .ok { defaultAnalyzeResponse url with risk_score := 0 }
    ∧ extractFields (.jobj [("risk_score", .jnum 150)]) url
        = .ok { defaultAnalyzeResponse url with risk_score := 100 }
    ∧ (∀ n : Int, extractFields (.jobj [("risk_score", .jnum (n : Rat))]) url
        = .ok { defaultAnalyzeResponse url with
                risk_score := min 100 (max 0 n) })
    ∧ extractFields (.jobj [("risk_score", .jnum q)]) url
        = .ok { defaultAnalyzeResponse url with
                risk_score := min 100 (max 0 (ratTruncPy q)) }
    ∧ (0 ≤ min 100 (max 0 (ratTruncPy q))
        ∧ min 100 (max 0 (ratTruncPy q)) ≤ 100)
    ∧ extractFields (.jobj [("threats", .jarr [.jobj []])]) url
        = .ok { defaultAnalyzeResponse url with
                threats := [⟨"unknown", "medium", "", 1 / 2⟩] }
    ∧ extractFields
          (.jobj [("threats", .jarr [.jobj [("type", .jstr ty)]])]) url
        = .ok { defaultAnalyzeResponse url with
                threats := [⟨ty, "medium", "", 1 / 2⟩] }
    ∧ extractFields
          (.jobj [("threats", .jarr [.jobj [("confidence", .jnum q)]])]) url
        = .ok { defaultAnalyzeResponse url with
                threats := [⟨"unknown", "medium", "", q⟩] } := by
  refine ⟨rfl, ?_, ?_, ?_, rfl, ?_, rfl, rfl, rfl⟩
  · show Except.ok _ = _
    rw [show ratTruncPy (-5) = (-5 : Int) from ratTruncPy_intCast (-5)]
    norm_num [defaultAnalyzeResponse]
  · show Except.ok _ = _
    rw [show ratTruncPy (150 : Rat) = (150 : Int) from by
      rw [show (150 : Rat) = ((150 : Int) : Rat) from by norm_num,
        ratTruncPy_intCast]]
    norm_num [defaultAnalyzeResponse]
  · intro n
    show Except.ok _ = _
    rw [ratTruncPy_intCast n]
    simp [defaultAnalyzeResponse]
  · exact ⟨le_min (by norm_num) (le_max_left 0 _), min_le_left _ _⟩

/-! ## Claim C7 - interpreter fail-open -/

/-- `json.loads` evaluated at the single raw text `"[]"` (in Python,
`json.loads("[]") == []`); drives `_parse_llm_response` on that input. -/
def loadsEmptyArray : List Char → Option JVal := fun l =>
  if l = "[]".data then some (.jarr []) else none

/--
C7, the divergence: on raw text `"[]"` - valid JSON whose top level is not
an object, i.e. a "missing required structural fields" parse failure -
`data.get("threats", [])` raises `AttributeError`, which the `except
(json.JSONDecodeError, KeyError, ValueError)` clause does **not** catch, so
`_parse_llm_response` raises instead of returning the safe fallback the
spec requires.
-/
theorem parse_llm_response_raises_on_array :
    _parse_llm_response loadsEmptyArray "[]".data "u"
      = .error .attributeErr := by
  decide

/-- The caught failure classes do produce the documented safe fallback: a
decode failure (or a caught `KeyError`/`ValueError` from extraction) yields
risk 0, safe, with a ≤ 200-character excerpt of the raw text. -/
theorem parse_llm_response_fallback (loads : List Char → Option JVal)
    (raw : List Char) (url : String) (v : JVal) (e : PyExc) :
    (loads (stripFences raw) = none →
      _parse_llm_response loads raw url = .ok (parseFallback raw url))
    ∧ (loads (stripFences raw) = some v →
       extractFields v url = .error e →
       (e = .jsonDecodeErr ∨ e = .keyErr ∨ e = .valueErr) →
       _parse_llm_response loads raw url = .ok (parseFallback raw url))
    ∧ (parseFallback raw url).risk_score = 0
    ∧ (parseFallback raw url).is_safe = true
    ∧ (raw.take 200).length ≤ 200 := by
  refine ⟨?_, ?_, rfl, rfl, ?_⟩
  · intro h
    simp only [_parse_llm_response, h]
  · intro h he hclass
    simp only [_parse_llm_response, h, he, if_pos hclass]
  · simp [List.length_take]

/-! ## Claim C8 - fence stripping -/

theorem fenceClose_reverse_eq :
    ("\n```".data).reverse = "```".data ++ ['\n'] := by decide

/-- After the leading fence is gone, stripping the trailing fence from the
left-stripped remainder `p ++ "\n` ``` `"` yields exactly `p.strip()`. -/
theorem stripTrailFence_append (p : List Char) :
    stripTrailFence ((p ++ "\n```".data).dropWhile pyIsSpace)
      = pyStripL p := by
  rw [List.dropWhile_append]
  by_cases hp : (p.dropWhile pyIsSpace).isEmpty
  · rw [if_pos hp]
    have h1 : ("\n```".data).dropWhile pyIsSpace = "```".data := by decide
    have h2 : stripTrailFence ("```".data) = [] := by decide
    rw [h1, h2]
    have h3 : p.dropWhile pyIsSpace = [] := by
      simpa [List.isEmpty_iff] using hp
    simp [pyStripL, pyStripLeftL, pyStripRightL, h3]
  · rw [if_neg hp]
    have hrev : (p.dropWhile pyIsSpace ++ "\n```".data).reverse
        = "```".data ++ ('\n' :: (p.dropWhile pyIsSpace).reverse) := by
      rw [List.reverse_append, fenceClose_reverse_eq, List.append_assoc]
      rfl
    have hs : ("```".data).isSuffixOf
        (p.dropWhile pyIsSpace ++ "\n```".data) = true := by
      show (("```".data).reverse).isPrefixOf _ = true
      rw [hrev, show ("```".data).reverse = "```".data from by decide,
        List.isPrefixOf_iff_prefix]
      exact List.prefix_append _ _
    rw [stripTrailFence, if_pos hs, hrev,
      List.drop_left' (show ("```".data).length = 3 from by decide)]
    have hnl : pyIsSpace '\n' = true := by decide
    rw [List.dropWhile_cons, if_pos hnl]
    rfl

/-- A fence-wrapped payload has no leading/trailing whitespace, so
`raw.strip()` leaves it unchanged (generic in the opening fence `a`). -/
theorem pyStripL_fenced (a p : List Char)
    (ha : a.dropWhile pyIsSpace = a) (hne : ¬ a.isEmpty = true) :
    pyStripL (a ++ p ++ "\n```".data) = a ++ p ++ "\n```".data := by
  have hL : pyStripLeftL (a ++ p ++ "\n```".data)
      = a ++ p ++ "\n```".data := by
    rw [List.append_assoc, pyStripLeftL, List.dropWhile_append, ha]
    rw [if_neg hne, ← List.append_assoc]
  have hfc : (("\n```".data).reverse).dropWhile pyIsSpace
      = ("\n```".data).reverse := by decide
  have hfcne : ¬ (("\n```".data).reverse).isEmpty = true := by decide
  have key : ((a ++ p ++ "\n```".data).reverse).dropWhile pyIsSpace
      = (a ++ p ++ "\n```".data).reverse := by
    rw [show a ++ p ++ "\n```".data = (a ++ p) ++ "\n```".data from rfl,
      List.reverse_append, List.dropWhile_append, hfc, if_neg hfcne]
  rw [pyStripL, hL, pyStripRightL, key, List.reverse_reverse]

/-- `re.sub(r"^```(?:json)?\s*", "", _)` on a tagged wrapped payload leaves
the left-stripped payload plus closing fence. -/
theorem stripLeadFence_tagged (p : List Char) :
    stripLeadFence ("```json\n".data ++ p ++ "\n```".data)
      = (p ++ "\n```".data).dropWhile pyIsSpace := by
  rw [stripLeadFence,
    show ("```json\n".data ++ p ++ "\n```".data)
      = "```".data ++ ("json\n".data ++ (p ++ "\n```".data)) from by
        simp [List.append_assoc],
    List.drop_left' (show ("```".data).length = 3 from by decide),
    show ("json\n".data ++ (p ++ "\n```".data))
      = "json".data ++ ('\n' :: (p ++ "\n```".data)) from by
        simp,
    if_pos (by
      rw [ List.isPrefixOf_iff_prefix]
      exact List.prefix_append _ _),
    List.drop_left' (show ("json".data).length = 4 from by decide),
    List.dropWhile_cons]
  rw [if_pos (show pyIsSpace '\n' = true from by decide)]

/-- The same for the untagged opening fence. -/
theorem stripLeadFence_untagged (p : List Char) :
    stripLeadFence ("```\n".data ++ p ++ "\n```".data)
      = (p ++ "\n```".data).dropWhile pyIsSpace := by
  rw [stripLeadFence,
    show ("```\n".data ++ p ++ "\n```".data)
      = "```".data ++ ('\n' :: (p ++ "\n```".data)) from by
        simp,
    List.drop_left' (show ("```".data).length = 3 from by decide)]
  have hnj : ("json".data).isPrefixOf ('\n' :: (p ++ "\n```".data))
      = false := by
    show (('j' :: "son".data)).isPrefixOf _ = false
    simp [List.isPrefixOf]
  rw [hnj]
  simp only [Bool.false_eq_true, if_false, List.dropWhile_cons]
  rw [if_pos (show pyIsSpace '\n' = true from by decide)]

theorem stripFences_wrapJson (p : List Char) :
    stripFences ("```json\n".data ++ p ++ "\n```".data) = pyStripL p := by
  have ha : ("```json\n".data).dropWhile pyIsSpace = "```json\n".data := by
    decide
  have hne : ¬ ("```json\n".data).isEmpty = true := by decide
  have hpre : ("```".data).isPrefixOf
      ("```json\n".data ++ p ++ "\n```".data) = true := by
    rw [show ("```json\n".data ++ p ++ "\n```".data)
        = "```".data ++ ("json\n".data ++ (p ++ "\n```".data)) from by
          simp [List.append_assoc],
      List.isPrefixOf_iff_prefix]
    exact List.prefix_append _ _
  rw [stripFences, pyStripL_fenced _ _ ha hne, if_pos hpre,
    stripLeadFence_tagged, stripTrailFence_append]

theorem stripFences_wrapPlain (p : List Char) :
    stripFences ("```\n".data ++ p ++ "\n```".data) = pyStripL p := by
  have ha : ("```\n".data).dropWhile pyIsSpace = "```\n".data := by decide
  have hne : ¬ ("```\n".data).isEmpty = true := by decide
  have hpre : ("```".data).isPrefixOf
      ("```\n".data ++ p ++ "\n```".data) = true := by
    rw [show ("```\n".data ++ p ++ "\n```".data)
        = "```".data ++ ('\n' :: (p ++ "\n```".data)) from by simp,
      List.isPrefixOf_iff_prefix]
    exact List.prefix_append _ _
  rw [stripFences, pyStripL_fenced _ _ ha hne, if_pos hpre,
    stripLeadFence_untagged, stripTrailFence_append]

/-- `json.loads` evaluated at the single cleaned text
`{"risk_score": "x"}` (in Python this parses to the dict
`{"risk_score": "x"}`); drives `_parse_llm_response` on the payloads of the
fence-wrapping counterexample. -/
def loadsRiskStr : List Char → Option JVal := fun l =>
  if l = "\x7b\"risk_score\": \"x\"\x7d".data then
    some (.jobj [("risk_score", .jstr "x")])
  else none

/--
C8, counterexample.  For the well-formed JSON payload
`{"risk_score": "x"}`, extraction hits `int("x")` - a caught `ValueError` -
and the fallback embeds the *original* raw text, so parsing the payload
wrapped in a ```` ```json ```` fence and parsing it bare return different
summaries: the results are not field-for-field identical.
-/
theorem parse_fence_wrapping_differs :
    _parse_llm_response loadsRiskStr
        ("```json\n\x7b\"risk_score\": \"x\"\x7d\n```").data "u"
      ≠ _parse_llm_response loadsRiskStr "\x7b\"risk_score\": \"x\"\x7d".data "u" := by
  decide

/--
C8, amended: for every payload `p` that does not itself begin (after
stripping) with a backtick fence and whose cleaned text parses to JSON on
which field extraction *succeeds*, `_parse_llm_response` returns the very
same result for the bare payload and for the payload wrapped in a
backtick fence, tagged `json` or untagged.  (When extraction instead falls
back, the two summaries embed different raw texts - see the
counterexample.)
-/
theorem parse_fence_idempotence (loads : List Char → Option JVal)
    (p : List Char) (url : String) (v : JVal) (r : AnalyzeResponse)
    (h2 : loads (pyStripL p) = some v)
    (h3 : extractFields v url = .ok r) :
    _parse_llm_response loads ("```json\n".data ++ p ++ "\n```".data) url
        = .ok r
    ∧ _parse_llm_response loads ("```\n".data ++ p ++ "\n```".data) url
        = .ok r
    ∧ (("```".data).isPrefixOf (pyStripL p) = false →
        _parse_llm_response loads p url = .ok r) := by
  refine ⟨?_, ?_, ?_⟩
  · rw [_parse_llm_response, stripFences_wrapJson, h2]
    simp only [h3]
  · rw [_parse_llm_response, stripFences_wrapPlain, h2]
    simp only [h3]
  · intro hnp
    rw [_parse_llm_response, stripFences, if_neg (by simp [hnp]), h2]
    simp only [h3]

/-- C8, witness: the payload `{"a": 1}` (abstracted `loads` consistent with
`json.loads`) parses to the same result bare and wrapped. -/
def loadsObjA : List Char → Option JVal := fun l =>
  if l = "\x7b\"a\": 1\x7d".data then some (.jobj [("a", .jnum 1)]) else none

theorem parse_fence_idempotence_witness :
    _parse_llm_response loadsObjA ("```json\n\x7b\"a\": 1\x7d\n```").data "u"
        = .ok (defaultAnalyzeResponse "u")
    ∧ _parse_llm_response loadsObjA "\x7b\"a\": 1\x7d".data "u"
        = .ok (defaultAnalyzeResponse "u") :=
  ⟨(parse_fence_idempotence loadsObjA "\x7b\"a\": 1\x7d".data "u"
      (.jobj [("a", .jnum 1)]) (defaultAnalyzeResponse "u")
      rfl rfl).1,
   (parse_fence_idempotence loadsObjA "\x7b\"a\": 1\x7d".data "u"
      (.jobj [("a", .jnum 1)]) (defaultAnalyzeResponse "u")
      rfl rfl).2.2 (by decide)⟩
